import Mathlib

/-!
Verification development for the calendar-sync repository.

Shallow embedding of the core modules:
* `src/lib/error-handler.ts` — retry/backoff policy (`withRetry`, `shouldRetry`);
* `src/unnamed/part_000` — debounce coalescer (`debouncedSync`, `executeSync`);
* `src/lib/calendar-sync.ts` — stateless reconciliation (`getCalendarEvents` filter,
  `createSyncEvent`, `checkForDuplicateEvent`, `createEventInTarget`, `syncSingleCalendar`);
* the legacy cursor/mapping-based `syncSingleCalendar` variant embedded in
  `src/lib/google-auth.ts` (lines 453-837), together with the event-mapping
  storage operations of `src/lib/storage.ts`;
* `src/unnamed/part_004` — webhook channel lifecycle (`stopWebhook`,
  `registerWebhook`, `refreshWebhook`).

Provider calls (Google Calendar API) and the KV store are external collaborators;
they are modelled by explicit parameters (call outcomes, generated ids, clock
readings) threaded through otherwise-pure state-passing functions.
-/

/-! ## Error handling: src/lib/error-handler.ts -/

/-- A provider error as inspected by the retry machinery: an optional numeric
HTTP-style `code` and a `message` string (`error.code` / `error.message`).
An absent (or falsy) `code` is modelled as `none`. -/
structure GError where
  code : Option Nat
  message : String
deriving DecidableEq

/-- Character-list prefix test (helper for the substring test). -/
def segMatch : List Char → List Char → Bool
  | [], _ => true
  | _ :: _, [] => false
  | a :: as, b :: bs => a == b && segMatch as bs

/-- Does `sub` occur as a contiguous segment of `l`? -/
def includesAux (sub : List Char) : List Char → Bool
  | [] => segMatch sub []
  | c :: cs => segMatch sub (c :: cs) || includesAux sub cs

/-- JavaScript `msg.includes(sub)`: substring containment test. -/
def strIncludes (msg sub : String) : Bool :=
  includesAux sub.data msg.data

/-- JavaScript `s.startsWith(pre)`. -/
def jsStartsWith (s pre : String) : Bool :=
  segMatch pre.data s.data

/-- Embedding of `shouldRetry` (src/lib/error-handler.ts lines 70-127): error
classification by status code, with message inspection for 403 (rate limit /
quota), 401 (token) and code-less network errors. -/
def shouldRetry (error : GError) : Bool :=
  match error.code with
  | some 403 =>
      -- Rate limit exceeded or quota exceeded
      strIncludes error.message "rate limit" || strIncludes error.message "quota" ||
        strIncludes error.message "Rate Limit Exceeded"
  | some 429 => true
  | some 500 => true
  | some 502 => true
  | some 503 => true
  | some 504 => true
  | some 401 =>
      -- Unauthorized: token-expiry message is not retried, other 401s are
      !(strIncludes error.message "token")
  | some 404 => false
  | some 409 => false
  | some 410 => false
  | some _ => false
  | none =>
      -- network errors
      strIncludes error.message "ECONNRESET" || strIncludes error.message "ETIMEDOUT" ||
        strIncludes error.message "ENOTFOUND" || strIncludes error.message "network"

/-- The `CalendarSyncError` thrown by `withRetry` after exhausting attempts. -/
structure CalendarSyncError where
  message : String
  code : Option Nat
  retryable : Bool
deriving DecidableEq

/-- `RetryOptions` of src/lib/error-handler.ts lines 3-9, with the defaults of
`withRetry` (lines 28-34). Delays are naturals (milliseconds). -/
structure RetryOptions where
  maxAttempts : Nat := 3
  baseDelay : Nat := 1000
  maxDelay : Nat := 10000
  backoffMultiplier : Nat := 2
deriving DecidableEq

/-- The wrapping error thrown at the end of `withRetry` (lines 56-61). -/
def wrapError (o : RetryOptions) (e : GError) : CalendarSyncError :=
  { message := toString o.maxAttempts ++ "回の試行後も失敗: " ++ e.message
    code := e.code
    retryable := false }

/-- Observable events of a `withRetry` execution: operation invocations and
backoff sleeps, in order. -/
inductive RetryEvent where
  | attempt (k : Nat)
  | sleep (ms : Nat)
deriving DecidableEq

def RetryEvent.isAttempt : RetryEvent → Bool
  | .attempt _ => true
  | .sleep _ => false

/-- Number of operation invocations recorded in a trace. -/
def numAttempts (tr : List RetryEvent) : Nat :=
  (tr.filter RetryEvent.isAttempt).length

/-- The delay computed at line 49:
`min(baseDelay * backoffMultiplier ^ (attempt - 1), maxDelay)`. -/
def attemptDelay (o : RetryOptions) (attempt : Nat) : Nat :=
  min (o.baseDelay * o.backoffMultiplier ^ (attempt - 1)) o.maxDelay

/-- The default `retryCondition` (line 33):
`(error, attempt) => shouldRetry(error) && attempt < maxAttempts`. -/
def defaultRetryCondition (o : RetryOptions) (e : GError) (attempt : Nat) : Bool :=
  shouldRetry e && decide (attempt < o.maxAttempts)

/-- The retry loop of `withRetry` (lines 38-54) from a given attempt number.
`op k` is the outcome of the k-th invocation of the wrapped operation.
Returns the event trace and the overall outcome.  On an error kept by the
retry condition with `attempt < maxAttempts` the loop sleeps `attemptDelay`
and continues; otherwise the loop ends and the last error is re-thrown
wrapped (lines 56-61). -/
def withRetryFrom {α : Type} (op : Nat → Except GError α) (o : RetryOptions)
    (cond : GError → Nat → Bool) (attempt : Nat) :
    List RetryEvent × Except CalendarSyncError α :=
  match op attempt with
  | .ok a => ([.attempt attempt], .ok a)
  | .error e =>
    if cond e attempt then
      if h : attempt < o.maxAttempts then
        let rest := withRetryFrom op o cond (attempt + 1)
        (.attempt attempt :: .sleep (attemptDelay o attempt) :: rest.1, rest.2)
      else
        ([.attempt attempt], .error (wrapError o e))
    else
      ([.attempt attempt], .error (wrapError o e))
termination_by o.maxAttempts - attempt
decreasing_by omega

/-- Embedding of `withRetry` with the default retry condition.  The guard
mirrors the `for` loop bound: with `maxAttempts = 0` the loop body never runs
(the source then crashes dereferencing the undefined `lastError`; modelled as
an immediate error with an empty trace). -/
def withRetry {α : Type} (op : Nat → Except GError α) (o : RetryOptions) :
    List RetryEvent × Except CalendarSyncError α :=
  if 1 ≤ o.maxAttempts then
    withRetryFrom op o (defaultRetryCondition o) 1
  else
    ([], .error { message := "TypeError", code := none, retryable := false })

/-- The expected alternating trace segment `attempt a, sleep, attempt a+1,
sleep, …` covering `k` failed-and-retried attempts starting at attempt `a`. -/
def schedule (o : RetryOptions) : Nat → Nat → List RetryEvent
  | _, 0 => []
  | a, k + 1 => .attempt a :: .sleep (attemptDelay o a) :: schedule o (a + 1) k

/-! ## Debounce coalescer: src/unnamed/part_000 -/

/-- `DEBOUNCE_DELAY = 5 * 60 * 1000` (5 minutes). -/
def DEBOUNCE_DELAY : Nat := 5 * 60 * 1000

/-- `MAX_WAIT_TIME = 30 * 60 * 1000` (30 minutes, the hard ceiling). -/
def MAX_WAIT_TIME : Nat := 30 * 60 * 1000

/-- The per-resource debounce bookkeeping for one calendar: the pending timer
(absolute scheduled fire time, `syncTimers` entry) and the first-notification
time (`firstWebhookTime` entry). -/
structure DebounceState where
  timer : Option Nat := none
  firstAt : Option Nat := none
deriving DecidableEq

/-- Embedding of `debouncedSync` (src/unnamed/part_000 lines 21-56) for one
resource.  `now` is `Date.now()`.  Returns the new state and, when the hard
ceiling was reached, the time at which `executeSync` ran (which clears both
maps in its `finally`, lines 74-78).  Otherwise a timer is (re)scheduled for
`min(DEBOUNCE_DELAY, MAX_WAIT_TIME - waitedTime)` from now. -/
def debouncedSync (now : Nat) (s : DebounceState) : DebounceState × Option Nat :=
  -- 既存のタイマーをキャンセル / 初回のWebhook受信時刻を記録
  let firstAt := if s.timer.isSome then s.firstAt else some now
  let firstTime := firstAt.getD now
  let waitedTime := now - firstTime
  if MAX_WAIT_TIME ≤ waitedTime then
    ({ timer := none, firstAt := none }, some now)
  else
    let remainingWait := min DEBOUNCE_DELAY (MAX_WAIT_TIME - waitedTime)
    ({ timer := some (now + remainingWait), firstAt := firstAt }, none)

/-- Timer firing: if a pending timer is due at or before time `t`, it fires;
`executeSync` runs and clears the state. -/
def fireIfDue (s : DebounceState) (t : Nat) : DebounceState × Option Nat :=
  match s.timer with
  | some tf => if tf ≤ t then ({ timer := none, firstAt := none }, some tf) else (s, none)
  | none => (s, none)

/-- Process a list of notification times: before each notification any due
timer fires, then `debouncedSync` handles the notification; after the last
notification the remaining pending timer (if any) eventually fires.  Returns
the times at which reconciliation runs were triggered. -/
def runAux (s : DebounceState) : List Nat → List Nat
  | [] =>
    match s.timer with
    | some tf => [tf]
    | none => []
  | t :: ts =>
    let f := fireIfDue s t
    let g := debouncedSync t f.1
    (f.2.toList ++ g.2.toList) ++ runAux g.1 ts

/-- Run the debounce machine from the empty state on a sequence of
notification times. -/
def runDebounce (ts : List Nat) : List Nat :=
  runAux {} ts

/-! ## Shared calendar data model: src/unnamed (types/index.ts section) -/

/-- A Google Calendar time string: either an RFC3339 date-time (identified by
its parsed timestamp in milliseconds) or a `YYYY-MM-DD` all-day date
(identified by its day index since the epoch).  Two strings of different
forms are never equal, matching JavaScript `===` on the raw strings. -/
inductive TimeStr where
  | dt (ms : Nat)
  | d (day : Nat)
deriving DecidableEq

/-- JavaScript `new Date(s).getTime()` on a calendar time string: a date-only
string parses to UTC midnight of that day. -/
def TimeStr.getTime : TimeStr → Nat
  | .dt ms => ms
  | .d day => day * 86400000

/-- The `{dateTime?, date?, timeZone?}` start/end object of a calendar event. -/
structure EventDateTime where
  dateTime : Option Nat := none
  date : Option Nat := none
  timeZone : Option String := none
deriving DecidableEq

/-- JavaScript `t.dateTime || t.date` (first truthy of the two fields). -/
def timeValue (t : EventDateTime) : Option TimeStr :=
  match t.dateTime with
  | some ms => some (.dt ms)
  | none => t.date.map .d

/-- `SyncMetadata` (types/index.ts): provenance attached to placeholders. -/
structure SyncMetadata where
  sourceCalendarId : String
  sourceCalendarName : String
  sourceEventId : String
  syncedAt : String
deriving DecidableEq

/-- The `reminders` object set on sync events. -/
structure Reminders where
  useDefault : Bool
  overrides : List Nat
deriving DecidableEq

/-- `CalendarEvent` (types/index.ts lines 616-648).  `extendedPrivate` models
`extendedProperties.private`; for events created by this system it carries the
`SyncMetadata` record, and its presence models the presence of the
`sourceCalendarId` key tested by the duplicate check. -/
structure CalendarEvent where
  id : Option String := none
  summary : String := ""
  description : Option String := none
  location : Option String := none
  start : EventDateTime := {}
  «end» : EventDateTime := {}
  colorId : Option String := none
  transparency : Option String := none
  visibility : Option String := none
  guestsCanModify : Option Bool := none
  guestsCanInviteOthers : Option Bool := none
  reminders : Option Reminders := none
  extendedPrivate : Option SyncMetadata := none
deriving DecidableEq

/-- `SyncResult` (types/index.ts lines 708-716). -/
structure SyncResult where
  created : Nat := 0
  updated : Nat := 0
  deleted : Nat := 0
  errors : List String := []
deriving DecidableEq

/-- `SourceCalendarConfig` (src/lib/calendar-sync.ts lines 5-8). -/
structure SourceCalendarConfig where
  id : String
  name : String
deriving DecidableEq

/-- A raw event item as returned by the provider's `events.list`, before the
filter in `getCalendarEvents`: the `start` object may be absent, and
`attendees` (with `self` and `responseStatus`) is only present here. -/
structure RawAttendee where
  self : Bool
  responseStatus : Option String
deriving DecidableEq

structure RawEvent where
  id : Option String := none
  summary : Option String := none
  description : Option String := none
  location : Option String := none
  start : Option EventDateTime := none
  «end» : Option EventDateTime := none
  attendees : Option (List RawAttendee) := none
  colorId : Option String := none
  transparency : Option String := none
  visibility : Option String := none
deriving DecidableEq

namespace CalendarSync

/-! Embedding of the live stateless variant, src/lib/calendar-sync.ts. -/

/-- The filter predicate of `getCalendarEvents` (lines 74-91): keep only
events with some time information, and drop events whose self-attendee
declined. -/
def keepEvent (event : RawEvent) : Bool :=
  match event.start with
  | none => false
  | some s =>
    -- 全日イベント、または時間が指定されているイベントのみ
    if s.dateTime.isNone && s.date.isNone then false
    else
      -- 辞退したイベントは除外
      match event.attendees with
      | some attendees =>
        match attendees.find? (fun attendee => attendee.self) with
        | some selfAttendee =>
          if selfAttendee.responseStatus = some "declined" then false else true
        | none => true
      | none => true

/-- The mapping step of `getCalendarEvents` (lines 92-110): project a raw item
onto the `CalendarEvent` shape (the filter guarantees `start` is present). -/
def toCalendarEvent (event : RawEvent) : CalendarEvent :=
  { id := event.id
    summary := event.summary.getD "無題のイベント"
    description := event.description
    location := event.location
    start := event.start.getD {}
    «end» := event.«end».getD {}
    colorId := event.colorId
    transparency := event.transparency
    visibility := event.visibility }

/-- The pure core of `getCalendarEvents` (lines 73-110) applied to the items
returned by the provider. -/
def getCalendarEvents (items : List RawEvent) : List CalendarEvent :=
  (items.filter keepEvent).map toCalendarEvent

/-- Embedding of `createSyncEvent` (lines 133-181).  `syncedAt` is the
formatted current time (computed from the clock in the source, passed in
here). -/
def createSyncEvent (sourceEvent : CalendarEvent) (metadata : SyncMetadata)
    (syncedAt : String) : CalendarEvent :=
  { summary := "🔒 予定あり"
    start := { dateTime := sourceEvent.start.dateTime
               date := sourceEvent.start.date
               timeZone := sourceEvent.start.timeZone }
    «end» := { dateTime := sourceEvent.«end».dateTime
               date := sourceEvent.«end».date
               timeZone := sourceEvent.«end».timeZone }
    description := some ("[自動同期]\n同期元: " ++ metadata.sourceCalendarName ++
      "\n同期時刻: " ++ syncedAt ++ "\n同期元イベントID: " ++ metadata.sourceEventId)
    colorId := some "8"
    transparency := some "opaque"
    visibility := some "default"
    guestsCanModify := some false
    guestsCanInviteOthers := some false
    reminders := some { useDefault := false, overrides := [] }
    extendedPrivate := some metadata }

/-- Loop body of `checkForDuplicateEvent` (lines 222-255), applied to one
event of the target-calendar listing.  `startField` is the new event's
`start` object; `timeMin`/`timeMax` its `start.dateTime || start.date` and
`end.dateTime || end.date`.  Timed events use containment
(`existStart <= newStart && existEnd >= newEnd`); all-day events require
exact equality of both raw strings. -/
def isDuplicateOf (startField : EventDateTime) (timeMin timeMax : TimeStr)
    (existingEvent : CalendarEvent) : Bool :=
  existingEvent.extendedPrivate.isSome &&
    (match startField.dateTime, existingEvent.start.dateTime with
     | some _, some existStart =>
       -- 時刻指定イベント: 包含関係をチェック
       decide (existStart ≤ timeMin.getTime) &&
         (match timeValue existingEvent.«end» with
          | some existingEnd => decide (timeMax.getTime ≤ existingEnd.getTime)
          | none => false)
     | _, _ =>
       -- 全日イベントの場合は完全一致のみチェック
       match startField.date, existingEvent.start.date with
       | some _, some _ =>
         decide (timeValue existingEvent.start = some timeMin) &&
           decide (timeValue existingEvent.«end» = some timeMax)
       | _, _ => false)

/-- Embedding of `checkForDuplicateEvent` (lines 184-262).  `listing` is the
outcome of the `events.list` call on the target calendar: `none` models a
listing error (handled by returning `false`, lines 258-261); `some`
carries the target calendar's events.  Any event satisfying the containment
or equality test necessarily overlaps the queried window, so the windowed
query is modelled by the target calendar's event list. -/
def checkForDuplicateEvent (event : CalendarEvent)
    (listing : Option (List CalendarEvent)) : Bool :=
  match listing with
  | none => false
  | some existingEvents =>
    match timeValue event.start, timeValue event.«end» with
    | some timeMin, some timeMax =>
      existingEvents.any (isDuplicateOf event.start timeMin timeMax)
    | _, _ => false

/-- Embedding of `createEventInTarget` (lines 265-294): duplicate check, then
insert.  Returns the id handed back to the caller (a `duplicate_`-prefixed
pseudo-id on a skip), the new target event list, and whether an insert call
was issued.  `newId` is the provider-assigned id, `dupStamp` the `Date.now()`
used in the pseudo-id. -/
def createEventInTarget (event : CalendarEvent)
    (listing : Option (List CalendarEvent)) (target : List CalendarEvent)
    (newId dupStamp : String) : String × List CalendarEvent × Bool :=
  if checkForDuplicateEvent event listing then
    ("duplicate_" ++ dupStamp, target, false)
  else
    (newId, target ++ [{ event with id := some newId }], true)

/-- Per-run environment: source calendar config, clock readings, whether the
duplicate-check listing call succeeds, and the provider's id generator
(indexed by the number of inserts so far). -/
structure SyncEnv where
  cfg : SourceCalendarConfig
  syncedAtLocal : String
  syncedAtIso : String
  listOk : Bool
  genId : Nat → String
  dupStamp : String

/-- World state threaded through one `syncSingleCalendar` run: the target
calendar's events, the accumulated `SyncResult`, and the number of insert
calls issued. -/
structure SyncState where
  target : List CalendarEvent
  result : SyncResult
  inserts : Nat

/-- Loop body of `syncSingleCalendar` (lines 370-401): skip `cancelled`
events; otherwise derive the placeholder and call `createEventInTarget`;
count a creation unless the returned id is `duplicate_`-prefixed. -/
def syncEventStep (env : SyncEnv) (st : SyncState) (event : CalendarEvent) :
    SyncState :=
  if event.summary = "cancelled" then st
  else
    let metadata : SyncMetadata :=
      { sourceCalendarId := env.cfg.id
        sourceCalendarName := env.cfg.name
        sourceEventId := event.id.getD ""
        syncedAt := env.syncedAtIso }
    let syncEvent := createSyncEvent event metadata env.syncedAtLocal
    let listing := if env.listOk then some st.target else none
    let c := createEventInTarget syncEvent listing st.target (env.genId st.inserts)
      env.dupStamp
    let st' := { st with target := c.2.1
                         inserts := st.inserts + (if c.2.2 then 1 else 0) }
    -- 重複でスキップされた場合 (duplicate_ プレフィックス) はカウントしない
    if jsStartsWith c.1 "duplicate_" then st'
    else { st' with result := { st'.result with created := st'.result.created + 1 } }

/-- Embedding of `syncSingleCalendar` (lines 347-419), stateless variant: a
full-window fetch (the `events` argument) processed event by event with no
mapping lookups; no update or delete calls are issued on this path. -/
def syncSingleCalendar (env : SyncEnv) (events : List CalendarEvent)
    (target0 : List CalendarEvent) : SyncState :=
  events.foldl (syncEventStep env) { target := target0, result := {}, inserts := 0 }

end CalendarSync

namespace CursorSync

/-! Embedding of the legacy cursor/mapping-based `syncSingleCalendar` variant
found in src/lib/google-auth.ts (lines 453-837), with the event-mapping store
operations of src/lib/storage.ts (`mapping:<calendarId>:<eventId>` keys). -/

/-- The event-mapping portion of the KV store:
`(sourceCalendarId, sourceEventId) → targetEventId`, latest write first. -/
def Mappings : Type := List ((String × String) × String)

/-- `getEventMapping` (src/lib/storage.ts lines 175-179). -/
def getEventMapping (maps : Mappings) (sourceCalendarId sourceEventId : String) :
    Option String :=
  (maps.find? fun kv => decide (kv.1 = (sourceCalendarId, sourceEventId))).map (·.2)

/-- `setEventMapping` (src/lib/storage.ts lines 181-190): a KV `set`
overwrites, modelled by consing (reads take the latest write). -/
def setEventMapping (maps : Mappings) (sourceCalendarId sourceEventId targetEventId : String) :
    Mappings :=
  ((sourceCalendarId, sourceEventId), targetEventId) :: maps

/-- `deleteEventMapping` (src/lib/storage.ts lines 192-196). -/
def deleteEventMapping (maps : Mappings) (sourceCalendarId sourceEventId : String) :
    Mappings :=
  maps.filter fun kv => !(decide (kv.1 = (sourceCalendarId, sourceEventId)))

/-- `createSyncEvent` of the legacy variant (google-auth.ts lines 579-619):
same fixed transformation but without `extendedProperties`. -/
def createSyncEvent (sourceEvent : CalendarEvent) (metadata : SyncMetadata)
    (syncedAt : String) : CalendarEvent :=
  { summary := "🔒 予定あり"
    start := { dateTime := sourceEvent.start.dateTime
               date := sourceEvent.start.date
               timeZone := sourceEvent.start.timeZone }
    «end» := { dateTime := sourceEvent.«end».dateTime
               date := sourceEvent.«end».date
               timeZone := sourceEvent.«end».timeZone }
    description := some ("[自動同期]\n同期元: " ++ metadata.sourceCalendarName ++
      "\n同期時刻: " ++ syncedAt ++ "\n同期元イベントID: " ++ metadata.sourceEventId)
    colorId := some "8"
    transparency := some "opaque"
    visibility := some "default"
    guestsCanModify := some false
    guestsCanInviteOthers := some false
    reminders := some { useDefault := false, overrides := [] } }

/-- Environment of one legacy sync run. -/
structure SyncEnv where
  cfg : SourceCalendarConfig
  syncedAtLocal : String
  syncedAtIso : String
  genId : Nat → String

/-- World state of the legacy variant: target events, persisted mappings,
result counters, and API-call counters. -/
structure SyncState where
  target : List CalendarEvent
  mappings : Mappings
  result : SyncResult
  inserts : Nat
  updates : Nat
  deletes : Nat
  mappingWrites : Nat

/-- Loop body of the legacy `syncSingleCalendar` (google-auth.ts lines
721-766): on a `cancelled` marker, delete the mapped target event (404 treated
as success) and its mapping; otherwise update in place when a mapping exists,
else insert and persist a new mapping. -/
def syncEventStep (env : SyncEnv) (st : SyncState) (event : CalendarEvent) :
    SyncState :=
  if event.summary = "cancelled" then
    match getEventMapping st.mappings env.cfg.id (event.id.getD "") with
    | some mappedEventId =>
      { st with
          target := st.target.filter fun e => !(decide (e.id = some mappedEventId))
          mappings := deleteEventMapping st.mappings env.cfg.id (event.id.getD "")
          deletes := st.deletes + 1
          result := { st.result with deleted := st.result.deleted + 1 } }
    | none => st
  else
    let metadata : SyncMetadata :=
      { sourceCalendarId := env.cfg.id
        sourceCalendarName := env.cfg.name
        sourceEventId := event.id.getD ""
        syncedAt := env.syncedAtIso }
    let syncEvent := createSyncEvent event metadata env.syncedAtLocal
    match getEventMapping st.mappings env.cfg.id (event.id.getD "") with
    | some existingMappedId =>
      { st with
          target := st.target.map fun e =>
            if e.id = some existingMappedId then { syncEvent with id := some existingMappedId }
            else e
          updates := st.updates + 1
          result := { st.result with updated := st.result.updated + 1 } }
    | none =>
      let newEventId := env.genId st.inserts
      { st with
          target := st.target ++ [{ syncEvent with id := some newEventId }]
          mappings := setEventMapping st.mappings env.cfg.id (event.id.getD "") newEventId
          inserts := st.inserts + 1
          mappingWrites := st.mappingWrites + 1
          result := { st.result with created := st.result.created + 1 } }

/-- The legacy `syncSingleCalendar` (google-auth.ts lines 697-790) over a
fetched event list, from given target-calendar contents and mapping store. -/
def syncSingleCalendar (env : SyncEnv) (events : List CalendarEvent)
    (target0 : List CalendarEvent) (mappings0 : Mappings) : SyncState :=
  events.foldl (syncEventStep env)
    { target := target0, mappings := mappings0, result := {}
      inserts := 0, updates := 0, deletes := 0, mappingWrites := 0 }

end CursorSync

namespace WebhookManager

/-! Embedding of the webhook channel lifecycle, src/unnamed/part_004. -/

/-- `WebhookChannel` (types/index.ts lines 659-666), the persisted record. -/
structure WebhookChannel where
  id : String
  resourceId : String
  resourceUri : String
  expiration : Nat
deriving DecidableEq

/-- Channel-related world state: the persisted record for one calendar
(`webhook:<calendarId>` KV key) and whether the provider-side old channel is
still active. -/
structure WebhookState where
  stored : Option WebhookChannel
  oldAlive : Bool
deriving DecidableEq

/-- Outcome of the provider's `channels.stop` call. -/
inductive StopOutcome where
  | ok
  | notFound
  | err
deriving DecidableEq

/-- Outcome of the provider's `events.watch` call. -/
inductive WatchOutcome where
  | ok (channel : WebhookChannel)
  | err
deriving DecidableEq

/-- Embedding of `stopWebhook` (part_004 lines 89-125): no stored record is a
success; a successful stop (or a 404) deletes the stored record; any other
stop error leaves the record in place and returns `false`. -/
def stopWebhook (stopRes : StopOutcome) (st : WebhookState) : WebhookState × Bool :=
  match st.stored with
  | none => (st, true)
  | some _ =>
    match stopRes with
    | .ok => ({ stored := none, oldAlive := false }, true)
    | .notFound => ({ st with stored := none }, true)
    | .err => (st, false)

/-- Embedding of `registerWebhook` (part_004 lines 26-86): on a successful
watch call the new channel is persisted and returned; on failure `null` is
returned and the store is untouched. -/
def registerWebhook (watchRes : WatchOutcome) (st : WebhookState) :
    WebhookState × Option WebhookChannel :=
  match watchRes with
  | .ok channel => ({ st with stored := some channel }, some channel)
  | .err => (st, none)

/-- Embedding of `refreshWebhook` (part_004 lines 145-153): stop the existing
webhook first (result ignored), then register a new one. -/
def refreshWebhook (stopRes : StopOutcome) (watchRes : WatchOutcome)
    (st : WebhookState) : WebhookState × Option WebhookChannel :=
  let s := stopWebhook stopRes st
  registerWebhook watchRes s.1

end WebhookManager

/-! ## Helper lemmas -/

theorem segMatch_self_append (l t : List Char) : segMatch l (l ++ t) = true := by
  induction l with
  | nil => rfl
  | cons a as ih => simp [segMatch, ih]

theorem jsStartsWith_dup (s : String) :
    jsStartsWith ("duplicate_" ++ s) "duplicate_" = true := by
  unfold jsStartsWith
  rw [String.data_append]
  exact segMatch_self_append _ _

theorem createSyncEvent_start (e : CalendarEvent) (m : SyncMetadata) (t : String) :
    (CalendarSync.createSyncEvent e m t).start = e.start := rfl

theorem createSyncEvent_end (e : CalendarEvent) (m : SyncMetadata) (t : String) :
    (CalendarSync.createSyncEvent e m t).«end» = e.«end» := rfl

theorem check_congr (ev ev' : CalendarEvent) (l : Option (List CalendarEvent))
    (hs : ev.start = ev'.start) (he : ev.«end» = ev'.«end») :
    CalendarSync.checkForDuplicateEvent ev l = CalendarSync.checkForDuplicateEvent ev' l := by
  simp only [CalendarSync.checkForDuplicateEvent, hs, he]

theorem withRetryFrom_ok {α : Type} (op : Nat → Except GError α)
    (o : RetryOptions) (cond : GError → Nat → Bool) (a : Nat) (v : α)
    (hop : op a = .ok v) :
    withRetryFrom op o cond a = ([.attempt a], .ok v) := by
  unfold withRetryFrom
  rw [hop]

theorem withRetryFrom_stop {α : Type} (op : Nat → Except GError α)
    (o : RetryOptions) (cond : GError → Nat → Bool) (a : Nat) (e : GError)
    (hop : op a = .error e) (hc : cond e a = false) :
    withRetryFrom op o cond a = ([.attempt a], .error (wrapError o e)) := by
  unfold withRetryFrom
  rw [hop]
  simp [hc]

theorem withRetryFrom_last {α : Type} (op : Nat → Except GError α)
    (o : RetryOptions) (cond : GError → Nat → Bool) (a : Nat) (e : GError)
    (hop : op a = .error e) (hc : cond e a = true) (hge : ¬ a < o.maxAttempts) :
    withRetryFrom op o cond a = ([.attempt a], .error (wrapError o e)) := by
  unfold withRetryFrom
  rw [hop]
  simp [hc, hge]

theorem withRetryFrom_step {α : Type} (op : Nat → Except GError α)
    (o : RetryOptions) (cond : GError → Nat → Bool) (a : Nat) (e : GError)
    (hop : op a = .error e) (hc : cond e a = true) (hlt : a < o.maxAttempts)
    (rest : List RetryEvent × Except CalendarSyncError α)
    (hrest : withRetryFrom op o cond (a + 1) = rest) :
    withRetryFrom op o cond a =
      (.attempt a :: .sleep (attemptDelay o a) :: rest.1, rest.2) := by
  unfold withRetryFrom
  rw [hop]
  simp [hc, hlt, hrest]

/-- The retry loop always begins by invoking the operation at the current
attempt number. -/
theorem withRetryFrom_trace_cons {α : Type} (op : Nat → Except GError α)
    (o : RetryOptions) (cond : GError → Nat → Bool) (a : Nat) :
    ∃ rest, (withRetryFrom op o cond a).1 = .attempt a :: rest := by
  cases hop : op a with
  | ok v => exact ⟨[], by rw [withRetryFrom_ok op o cond a v hop]⟩
  | error e =>
    by_cases hc : cond e a = true
    · by_cases hlt : a < o.maxAttempts
      · exact ⟨.sleep (attemptDelay o a) :: (withRetryFrom op o cond (a + 1)).1,
          by rw [withRetryFrom_step op o cond a e hop hc hlt _ rfl]⟩
      · exact ⟨[], by rw [withRetryFrom_last op o cond a e hop hc hlt]⟩
    · rw [Bool.not_eq_true] at hc
      exact ⟨[], by rw [withRetryFrom_stop op o cond a e hop hc]⟩

theorem numAttempts_nil : numAttempts [] = 0 := rfl

theorem numAttempts_attempt_cons (k : Nat) (tr : List RetryEvent) :
    numAttempts (.attempt k :: tr) = numAttempts tr + 1 := by
  simp [numAttempts, List.filter, RetryEvent.isAttempt, Nat.add_comm]

theorem numAttempts_sleep_cons (ms : Nat) (tr : List RetryEvent) :
    numAttempts (.sleep ms :: tr) = numAttempts tr := by
  simp [numAttempts, List.filter, RetryEvent.isAttempt]

/-- The loop performs at most `maxAttempts - a + 1` invocations starting from
attempt `a`. -/
theorem withRetryFrom_attempts_le {α : Type} (op : Nat → Except GError α)
    (o : RetryOptions) (cond : GError → Nat → Bool) :
    ∀ (n a : Nat), o.maxAttempts - a = n →
      numAttempts (withRetryFrom op o cond a).1 ≤ n + 1 := by
  intro n
  induction n with
  | zero =>
    intro a ha
    cases hop : op a with
    | ok v => simp [withRetryFrom_ok op o cond a v hop, numAttempts_attempt_cons, numAttempts_nil]
    | error e =>
      by_cases hc : cond e a = true
      · have hge : ¬ a < o.maxAttempts := by omega
        simp [withRetryFrom_last op o cond a e hop hc hge, numAttempts_attempt_cons, numAttempts_nil]
      · rw [Bool.not_eq_true] at hc
        simp [withRetryFrom_stop op o cond a e hop hc, numAttempts_attempt_cons, numAttempts_nil]
  | succ n ih =>
    intro a ha
    cases hop : op a with
    | ok v => simp [withRetryFrom_ok op o cond a v hop, numAttempts_attempt_cons, numAttempts_nil]
    | error e =>
      by_cases hc : cond e a = true
      · have hlt : a < o.maxAttempts := by omega
        rw [withRetryFrom_step op o cond a e hop hc hlt _ rfl]
        have := ih (a + 1) (by omega)
        simp only [numAttempts_attempt_cons, numAttempts_sleep_cons]
        omega
      · rw [Bool.not_eq_true] at hc
        simp [withRetryFrom_stop op o cond a e hop hc, numAttempts_attempt_cons, numAttempts_nil]

/-- On a constantly failing retryable error and the default condition, the
loop from attempt `a ≤ maxAttempts` invokes the operation exactly
`maxAttempts - a + 1` times and ends with the wrapped error. -/
theorem withRetryFrom_const_fail {α : Type} (e : GError) (he : shouldRetry e = true)
    (o : RetryOptions) :
    ∀ (n a : Nat), o.maxAttempts - a = n → 1 ≤ a → a ≤ o.maxAttempts →
      numAttempts (withRetryFrom (fun _ => (.error e : Except GError α)) o
          (defaultRetryCondition o) a).1 = o.maxAttempts - a + 1 ∧
        (withRetryFrom (fun _ => (.error e : Except GError α)) o
          (defaultRetryCondition o) a).2 = .error (wrapError o e) := by
  intro n
  induction n with
  | zero =>
    intro a ha h1 h2
    have hc : defaultRetryCondition o e a = false := by
      simp [defaultRetryCondition]
      omega
    rw [withRetryFrom_stop _ o _ a e rfl hc]
    simp [numAttempts_attempt_cons, numAttempts_nil, ha]
  | succ n ih =>
    intro a ha h1 h2
    have hlt : a < o.maxAttempts := by omega
    have hc : defaultRetryCondition o e a = true := by
      simp [defaultRetryCondition, he]
      omega
    rw [withRetryFrom_step _ o _ a e rfl hc hlt _ rfl]
    have := ih (a + 1) (by omega) (by omega) (by omega)
    simp only [numAttempts_attempt_cons, numAttempts_sleep_cons]
    refine ⟨?_, this.2⟩
    rw [this.1]
    omega

/-! ## Claim theorems -/

/-- C10: if the duplicate-check listing of the target calendar fails,
`checkForDuplicateEvent` returns `false` (no duplicate), and
`createEventInTarget` proceeds to insert the new placeholder (the insert call
is issued, the event is appended to the target calendar, and the new id is
returned rather than a `duplicate_` pseudo-id or an error). -/
theorem C10_listing_error_creates (event : CalendarEvent)
    (target : List CalendarEvent) (newId dupStamp : String) :
    CalendarSync.checkForDuplicateEvent event none = false ∧
    CalendarSync.createEventInTarget event none target newId dupStamp =
      (newId, target ++ [{ event with id := some newId }], true) :=
  ⟨rfl, rfl⟩

/-- C1 counterexample: the claim that a failed channel-creation attempt during
renewal leaves the previously persisted channel record unchanged and the old
channel running is false.  With a stored channel, a successful stop and a
failing watch call, `refreshWebhook` leaves the store with no recorded channel
and the old channel stopped. -/
theorem C1_counterexample :
    WebhookManager.refreshWebhook .ok .err
        { stored := some { id := "ch-old", resourceId := "res-old",
                           resourceUri := "uri-old", expiration := 1000 }
          oldAlive := true } =
      ({ stored := none, oldAlive := false }, none) := rfl

/-- C1 (amended): `refreshWebhook` stops the old channel and deletes its
stored record before attempting creation, so when the stop succeeds and the
subsequent channel creation fails, the calendar is left with no recorded
channel and the old channel stopped (the renewal returns `null` and the store
is empty). -/
theorem C1_refresh_stops_before_create (st : WebhookManager.WebhookState)
    (old : WebhookManager.WebhookChannel) (h : st.stored = some old) :
    WebhookManager.refreshWebhook .ok .err st =
      ({ stored := none, oldAlive := false }, none) := by
  cases st with
  | mk stored oldAlive =>
    simp only at h
    subst h
    rfl

theorem C1_witness :
    WebhookManager.refreshWebhook .ok .err
        { stored := some { id := "c", resourceId := "r", resourceUri := "u", expiration := 5 }
          oldAlive := true } =
      ({ stored := none, oldAlive := false }, none) :=
  C1_refresh_stops_before_create _
    { id := "c", resourceId := "r", resourceUri := "u", expiration := 5 } rfl

/-- C7: error classification and its consequence for `withRetry` with the
default retry condition.  `shouldRetry` is `true` for 429 and the 5xx codes,
equals the rate-limit/quota message test for 403, equals the
connection-reset/timeout/DNS/network message test for code-less errors, is
`false` for 404, 409 and 410, and for 401 credential (token) errors is
`false`.  Consequently an operation that always fails with 429 is invoked
exactly `maxAttempts` times before `withRetry` fails with the wrapping
`CalendarSyncError`, and an operation failing with 404 is invoked exactly
once, failing immediately. -/
theorem C7_retry_classification :
    (∀ m, shouldRetry ⟨some 429, m⟩ = true) ∧
    (∀ m, shouldRetry ⟨some 500, m⟩ = true) ∧
    (∀ m, shouldRetry ⟨some 502, m⟩ = true) ∧
    (∀ m, shouldRetry ⟨some 503, m⟩ = true) ∧
    (∀ m, shouldRetry ⟨some 504, m⟩ = true) ∧
    (∀ m, shouldRetry ⟨some 403, m⟩ =
      (strIncludes m "rate limit" || strIncludes m "quota" ||
        strIncludes m "Rate Limit Exceeded")) ∧
    (∀ m, shouldRetry ⟨none, m⟩ =
      (strIncludes m "ECONNRESET" || strIncludes m "ETIMEDOUT" ||
        strIncludes m "ENOTFOUND" || strIncludes m "network")) ∧
    (∀ m, shouldRetry ⟨some 404, m⟩ = false) ∧
    (∀ m, shouldRetry ⟨some 409, m⟩ = false) ∧
    (∀ m, shouldRetry ⟨some 410, m⟩ = false) ∧
    (∀ m, shouldRetry ⟨some 401, m⟩ = !(strIncludes m "token")) ∧
    (∀ (n b M mu : Nat) (m : String),
      numAttempts (withRetry (fun _ => (.error ⟨some 429, m⟩ : Except GError Unit))
          ⟨n + 1, b, M, mu⟩).1 = n + 1 ∧
        (withRetry (fun _ => (.error ⟨some 429, m⟩ : Except GError Unit))
          ⟨n + 1, b, M, mu⟩).2 = .error (wrapError ⟨n + 1, b, M, mu⟩ ⟨some 429, m⟩)) ∧
    (∀ (n b M mu : Nat) (m : String),
      withRetry (fun _ => (.error ⟨some 404, m⟩ : Except GError Unit)) ⟨n + 1, b, M, mu⟩ =
        ([.attempt 1], .error (wrapError ⟨n + 1, b, M, mu⟩ ⟨some 404, m⟩))) := by
  refine ⟨fun m => rfl, fun m => rfl, fun m => rfl, fun m => rfl, fun m => rfl,
    fun m => rfl, fun m => rfl, fun m => rfl, fun m => rfl, fun m => rfl, fun m => rfl,
    ?_, ?_⟩
  · intro n b M mu m
    have h429 : shouldRetry ⟨some 429, m⟩ = true := rfl
    have h := withRetryFrom_const_fail (α := Unit) ⟨some 429, m⟩ h429 ⟨n + 1, b, M, mu⟩
      n 1 (by simp) (by omega) (by simp)
    have hw : withRetry (fun _ => (.error ⟨some 429, m⟩ : Except GError Unit))
        ⟨n + 1, b, M, mu⟩ =
        withRetryFrom (fun _ => (.error ⟨some 429, m⟩ : Except GError Unit))
          ⟨n + 1, b, M, mu⟩ (defaultRetryCondition ⟨n + 1, b, M, mu⟩) 1 := by
      simp [withRetry]
    rw [hw]
    refine ⟨?_, h.2⟩
    rw [h.1]
    simp
  · intro n b M mu m
    have hw : withRetry (fun _ => (.error ⟨some 404, m⟩ : Except GError Unit))
        ⟨n + 1, b, M, mu⟩ =
        withRetryFrom (fun _ => (.error ⟨some 404, m⟩ : Except GError Unit))
          ⟨n + 1, b, M, mu⟩ (defaultRetryCondition ⟨n + 1, b, M, mu⟩) 1 := by
      simp [withRetry]
    rw [hw]
    exact withRetryFrom_stop _ _ _ 1 ⟨some 404, m⟩ rfl (by simp [defaultRetryCondition, shouldRetry])

/-- The retry loop from attempt `a`, when the first `k` attempts starting at
`a` all fail with retryable errors and `a + k ≤ maxAttempts`, produces the
alternating attempts-and-sleeps trace `schedule o a k` followed by attempt
`a + k`. -/
theorem withRetryFrom_schedule {α : Type} (op : Nat → Except GError α)
    (o : RetryOptions) :
    ∀ (k a : Nat), 1 ≤ a → a + k ≤ o.maxAttempts →
      (∀ j, a ≤ j → j < a + k → ∃ e, op j = .error e ∧ shouldRetry e = true) →
      ∃ rest, (withRetryFrom op o (defaultRetryCondition o) a).1 =
        schedule o a k ++ .attempt (a + k) :: rest := by
  intro k
  induction k with
  | zero =>
    intro a h1 h2 hf
    have ⟨rest, hr⟩ := withRetryFrom_trace_cons op o (defaultRetryCondition o) a
    exact ⟨rest, by simp [schedule, hr]⟩
  | succ k ih =>
    intro a h1 h2 hf
    obtain ⟨e, hop, he⟩ := hf a (le_refl a) (by omega)
    have hlt : a < o.maxAttempts := by omega
    have hc : defaultRetryCondition o e a = true := by
      simp [defaultRetryCondition, he]
      omega
    rw [withRetryFrom_step op o _ a e hop hc hlt _ rfl]
    obtain ⟨rest, hr⟩ := ih (a + 1) (by omega) (by omega)
      (fun j hj1 hj2 => hf j (by omega) (by omega))
    refine ⟨rest, ?_⟩
    simp only [hr, schedule]
    simp only [List.cons_append, List.append_assoc]
    have : a + 1 + k = a + (k + 1) := by omega
    rw [this]

/-- C8: the backoff-delay schedule of `withRetry`.  No sleep precedes the
first attempt (the trace starts with attempt 1); the operation is invoked at
most `maxAttempts` times; and when the first `k < maxAttempts` attempts fail
with retryable errors, the trace is `attempt 1, sleep d₁, …, attempt k,
sleep dₖ, attempt k+1, …` where the sleep after attempt `j` is exactly
`attemptDelay o j = min (baseDelay * backoffMultiplier ^ (j - 1)) maxDelay`
(that is what `schedule o 1 k` unfolds to). -/
theorem C8_backoff_delays :
    (∀ (α : Type) (op : Nat → Except GError α) (o : RetryOptions),
      1 ≤ o.maxAttempts → (withRetry op o).1.head? = some (.attempt 1)) ∧
    (∀ (α : Type) (op : Nat → Except GError α) (o : RetryOptions),
      numAttempts (withRetry op o).1 ≤ o.maxAttempts) ∧
    (∀ (α : Type) (op : Nat → Except GError α) (o : RetryOptions) (k : Nat),
      k < o.maxAttempts →
      (∀ j, 1 ≤ j → j ≤ k → ∃ e, op j = .error e ∧ shouldRetry e = true) →
      ∃ rest, (withRetry op o).1 = schedule o 1 k ++ .attempt (k + 1) :: rest) := by
  refine ⟨?_, ?_, ?_⟩
  · intro α op o h1
    have hw : withRetry op o = withRetryFrom op o (defaultRetryCondition o) 1 := by
      simp [withRetry, h1]
    obtain ⟨rest, hr⟩ := withRetryFrom_trace_cons op o (defaultRetryCondition o) 1
    rw [hw, hr]
    rfl
  · intro α op o
    by_cases h1 : 1 ≤ o.maxAttempts
    · have hw : withRetry op o = withRetryFrom op o (defaultRetryCondition o) 1 := by
        simp [withRetry, h1]
      rw [hw]
      have := withRetryFrom_attempts_le op o (defaultRetryCondition o)
        (o.maxAttempts - 1) 1 rfl
      omega
    · have hw : withRetry op o =
          ([], .error { message := "TypeError", code := none, retryable := false }) := by
        simp [withRetry, h1]
      rw [hw]
      simp [numAttempts_nil]
  · intro α op o k hk hf
    have h1 : 1 ≤ o.maxAttempts := by omega
    have hw : withRetry op o = withRetryFrom op o (defaultRetryCondition o) 1 := by
      simp [withRetry, h1]
    rw [hw]
    obtain ⟨rest, hr⟩ := withRetryFrom_schedule op o k 1 (le_refl 1) (by omega)
      (fun j hj1 hj2 => hf j hj1 (by omega))
    refine ⟨rest, ?_⟩
    rw [hr]
    have : 1 + k = k + 1 := by omega
    rw [this]

theorem C8_witness :
    1 ≤ (⟨3, 1000, 10000, 2⟩ : RetryOptions).maxAttempts ∧
    (∃ rest, (withRetry (fun _ => (.error ⟨some 429, "r"⟩ : Except GError Unit))
        ⟨3, 1000, 10000, 2⟩).1 =
      schedule ⟨3, 1000, 10000, 2⟩ 1 2 ++ .attempt 3 :: rest) :=
  ⟨by decide,
    C8_backoff_delays.2.2 Unit (fun _ => .error ⟨some 429, "r"⟩) ⟨3, 1000, 10000, 2⟩ 2
      (by decide) (fun j h1 h2 => ⟨⟨some 429, "r"⟩, rfl, rfl⟩)⟩

/-- Ceiling invariant of the debounce machine: from a state with a pending
timer due at `tf ≤ t0 + MAX_WAIT_TIME` and first notification recorded at
`t0`, any further sequence of notifications produces a reconciliation run at
some time `≤ t0 + MAX_WAIT_TIME`. -/
theorem runAux_ceiling :
    ∀ (ts : List Nat) (tf t0 : Nat), tf ≤ t0 + MAX_WAIT_TIME →
      ∃ x ∈ runAux { timer := some tf, firstAt := some t0 } ts,
        x ≤ t0 + MAX_WAIT_TIME := by
  intro ts
  induction ts with
  | nil =>
    intro tf t0 h
    exact ⟨tf, by simp [runAux], h⟩
  | cons t ts ih =>
    intro tf t0 h
    by_cases hdue : tf ≤ t
    · -- the pending timer fires before (or as) the notification arrives
      refine ⟨tf, ?_, h⟩
      simp [runAux, fireIfDue, hdue]
    · -- the notification cancels and reschedules the timer
      have hlt : t < tf := by omega
      have hwait : t - t0 < MAX_WAIT_TIME := by
        have : 0 < MAX_WAIT_TIME := by norm_num [MAX_WAIT_TIME]
        omega
      have hnotle : ¬ MAX_WAIT_TIME ≤ t - t0 := by omega
      have hstep :
          debouncedSync t { timer := some tf, firstAt := some t0 } =
            ({ timer := some (t + min DEBOUNCE_DELAY (MAX_WAIT_TIME - (t - t0)))
               firstAt := some t0 }, none) := by
        simp [debouncedSync, hnotle]
      have hbound : t + min DEBOUNCE_DELAY (MAX_WAIT_TIME - (t - t0)) ≤
          t0 + MAX_WAIT_TIME := by
        have hmin := min_le_right DEBOUNCE_DELAY (MAX_WAIT_TIME - (t - t0))
        omega
      obtain ⟨x, hx, hxle⟩ := ih (t + min DEBOUNCE_DELAY (MAX_WAIT_TIME - (t - t0))) t0 hbound
      refine ⟨x, ?_, hxle⟩
      simp [runAux, fireIfDue, hdue, hstep]
      exact hx

/-- C9: debounce rescheduling and the hard ceiling.  When a debounce state
already exists (a pending timer and a recorded first-notification time `t0`),
a notification at `now` cancels the previous timer and: if
`now - t0 ≥ MAX_WAIT_TIME` the reconciliation executes immediately and the
state is cleared; otherwise a new timer is scheduled
`min(DEBOUNCE_DELAY, MAX_WAIT_TIME - elapsed)` from now with `t0` preserved.
Consequently, for any notification sequence beginning at `t0`, some
reconciliation is triggered at or before `t0 + MAX_WAIT_TIME`, regardless of
how densely notifications keep arriving. -/
theorem C9_debounce_hard_ceiling :
    (∀ (now : Nat) (s : DebounceState) (tf t0 : Nat),
      s.timer = some tf → s.firstAt = some t0 →
      ((MAX_WAIT_TIME ≤ now - t0 →
          debouncedSync now s = ({ timer := none, firstAt := none }, some now)) ∧
        (now - t0 < MAX_WAIT_TIME →
          debouncedSync now s =
            ({ timer := some (now + min DEBOUNCE_DELAY (MAX_WAIT_TIME - (now - t0)))
               firstAt := some t0 }, none)))) ∧
    (∀ (t0 : Nat) (ts : List Nat),
      ∃ x ∈ runDebounce (t0 :: ts), x ≤ t0 + MAX_WAIT_TIME) := by
  constructor
  · intro now s tf t0 ht hf
    cases s with
    | mk timer firstAt =>
      simp only at ht hf
      subst ht
      subst hf
      constructor
      · intro hge
        simp [debouncedSync, hge]
      · intro hlt
        have : ¬ MAX_WAIT_TIME ≤ now - t0 := by omega
        simp [debouncedSync, this]
  · intro t0 ts
    have hfirst :
        debouncedSync t0 ({} : DebounceState) =
          ({ timer := some (t0 + min DEBOUNCE_DELAY MAX_WAIT_TIME)
             firstAt := some t0 }, none) := by
      have h0 : ¬ MAX_WAIT_TIME = 0 := by
        norm_num [MAX_WAIT_TIME]
      simp [debouncedSync, h0]
    have hbound : t0 + min DEBOUNCE_DELAY MAX_WAIT_TIME ≤ t0 + MAX_WAIT_TIME := by
      have := min_le_right DEBOUNCE_DELAY MAX_WAIT_TIME
      omega
    obtain ⟨x, hx, hxle⟩ := runAux_ceiling ts (t0 + min DEBOUNCE_DELAY MAX_WAIT_TIME) t0 hbound
    refine ⟨x, ?_, hxle⟩
    simp [runDebounce, runAux, fireIfDue, hfirst]
    exact hx

theorem C9_witness :
    debouncedSync 1800000 { timer := some 100, firstAt := some 0 } =
      ({ timer := none, firstAt := none }, some 1800000) :=
  (C9_debounce_hard_ceiling.1 1800000 { timer := some 100, firstAt := some 0 }
    100 0 rfl rfl).1 (by norm_num [MAX_WAIT_TIME])

theorem getEventMapping_set_same (m : CursorSync.Mappings) (c ev tid : String) :
    CursorSync.getEventMapping (CursorSync.setEventMapping m c ev tid) c ev = some tid := by
  simp [CursorSync.getEventMapping, CursorSync.setEventMapping, List.find?]

theorem getEventMapping_delete_same (m : CursorSync.Mappings) (c ev : String) :
    CursorSync.getEventMapping (CursorSync.deleteEventMapping m c ev) c ev = none := by
  induction m with
  | nil => rfl
  | cons kv tl ih =>
    by_cases h : kv.1 = (c, ev)
    · simpa [CursorSync.deleteEventMapping, List.filter, h] using ih
    · simp only [CursorSync.deleteEventMapping, List.filter] at ih ⊢
      simp only [h, decide_False, Bool.not_false, if_true]
      simp only [CursorSync.getEventMapping, List.find?] at ih ⊢
      simp [h, ih]

/-- C2: in the mapping-based reconciliation variant, a source event with no
prior mapping results in exactly one placeholder created in the target
calendar (one insert call) and the persisted mapping
`(sourceCalendarId, sourceEventId) → targetEventId`; a second reconciliation
over the same source event, with the mapping now present, issues exactly one
update call and zero create calls (and writes no further mapping). -/
theorem C2_create_then_update (env env2 : CursorSync.SyncEnv) (e : CalendarEvent)
    (target0 : List CalendarEvent) (maps0 : CursorSync.Mappings)
    (hnc : ¬ e.summary = "cancelled")
    (hcfg : env2.cfg = env.cfg)
    (hnomap : CursorSync.getEventMapping maps0 env.cfg.id (e.id.getD "") = none) :
    (CursorSync.syncSingleCalendar env [e] target0 maps0).result.created = 1 ∧
    (CursorSync.syncSingleCalendar env [e] target0 maps0).inserts = 1 ∧
    (CursorSync.syncSingleCalendar env [e] target0 maps0).mappingWrites = 1 ∧
    (CursorSync.syncSingleCalendar env [e] target0 maps0).target =
      target0 ++ [{ CursorSync.createSyncEvent e
          { sourceCalendarId := env.cfg.id, sourceCalendarName := env.cfg.name
            sourceEventId := e.id.getD "", syncedAt := env.syncedAtIso }
          env.syncedAtLocal with id := some (env.genId 0) }] ∧
    CursorSync.getEventMapping
        (CursorSync.syncSingleCalendar env [e] target0 maps0).mappings
        env.cfg.id (e.id.getD "") = some (env.genId 0) ∧
    ((CursorSync.syncSingleCalendar env2 [e]
        (CursorSync.syncSingleCalendar env [e] target0 maps0).target
        (CursorSync.syncSingleCalendar env [e] target0 maps0).mappings).updates = 1 ∧
      (CursorSync.syncSingleCalendar env2 [e]
        (CursorSync.syncSingleCalendar env [e] target0 maps0).target
        (CursorSync.syncSingleCalendar env [e] target0 maps0).mappings).result.updated = 1 ∧
      (CursorSync.syncSingleCalendar env2 [e]
        (CursorSync.syncSingleCalendar env [e] target0 maps0).target
        (CursorSync.syncSingleCalendar env [e] target0 maps0).mappings).inserts = 0 ∧
      (CursorSync.syncSingleCalendar env2 [e]
        (CursorSync.syncSingleCalendar env [e] target0 maps0).target
        (CursorSync.syncSingleCalendar env [e] target0 maps0).mappings).result.created = 0 ∧
      (CursorSync.syncSingleCalendar env2 [e]
        (CursorSync.syncSingleCalendar env [e] target0 maps0).target
        (CursorSync.syncSingleCalendar env [e] target0 maps0).mappings).mappingWrites = 0) := by
  have hst1 : CursorSync.syncSingleCalendar env [e] target0 maps0 =
      { target := target0 ++ [{ CursorSync.createSyncEvent e
            { sourceCalendarId := env.cfg.id, sourceCalendarName := env.cfg.name
              sourceEventId := e.id.getD "", syncedAt := env.syncedAtIso }
            env.syncedAtLocal with id := some (env.genId 0) }]
        mappings := CursorSync.setEventMapping maps0 env.cfg.id (e.id.getD "") (env.genId 0)
        result := { created := 1, updated := 0, deleted := 0, errors := [] }
        inserts := 1, updates := 0, deletes := 0, mappingWrites := 1 } := by
    simp [CursorSync.syncSingleCalendar, CursorSync.syncEventStep, hnc, hnomap]
  have hmap1 : CursorSync.getEventMapping
      (CursorSync.syncSingleCalendar env [e] target0 maps0).mappings
      env.cfg.id (e.id.getD "") = some (env.genId 0) := by
    rw [hst1]
    exact getEventMapping_set_same maps0 env.cfg.id (e.id.getD "") (env.genId 0)
  have hmap2 : CursorSync.getEventMapping
      (CursorSync.syncSingleCalendar env [e] target0 maps0).mappings
      env2.cfg.id (e.id.getD "") = some (env.genId 0) := by
    rw [hcfg]
    exact hmap1
  have hstep2 : ∀ (T1 : List CalendarEvent) (M1 : CursorSync.Mappings),
      CursorSync.getEventMapping M1 env2.cfg.id (e.id.getD "") = some (env.genId 0) →
      CursorSync.syncSingleCalendar env2 [e] T1 M1 =
        { target := T1.map fun x =>
            if x.id = some (env.genId 0) then
              { CursorSync.createSyncEvent e
                  { sourceCalendarId := env2.cfg.id, sourceCalendarName := env2.cfg.name
                    sourceEventId := e.id.getD "", syncedAt := env2.syncedAtIso }
                  env2.syncedAtLocal with id := some (env.genId 0) }
            else x
          mappings := M1
          result := { created := 0, updated := 1, deleted := 0, errors := [] }
          inserts := 0, updates := 1, deletes := 0, mappingWrites := 0 } := by
    intro T1 M1 hm
    simp [CursorSync.syncSingleCalendar, CursorSync.syncEventStep, hnc, hm]
  have hst2 := hstep2 (CursorSync.syncSingleCalendar env [e] target0 maps0).target
    (CursorSync.syncSingleCalendar env [e] target0 maps0).mappings hmap2
  refine ⟨?_, ?_, ?_, ?_, hmap1, ?_, ?_, ?_, ?_, ?_⟩
  · rw [hst1]
  · rw [hst1]
  · rw [hst1]
  · rw [hst1]
  · rw [hst2]
  · rw [hst2]
  · rw [hst2]
  · rw [hst2]
  · rw [hst2]

theorem C2_witness :
    (CursorSync.syncSingleCalendar
        { cfg := { id := "cal", name := "nm" }, syncedAtLocal := "L"
          syncedAtIso := "I", genId := fun _ => "gid" }
        [{ id := some "e1", summary := "s", start := { dateTime := some 100 }
           «end» := { dateTime := some 200 } }] [] []).result.created = 1 ∧
    (CursorSync.syncSingleCalendar
        { cfg := { id := "cal", name := "nm" }, syncedAtLocal := "L"
          syncedAtIso := "I", genId := fun _ => "gid" }
        [{ id := some "e1", summary := "s", start := { dateTime := some 100 }
           «end» := { dateTime := some 200 } }]
        (CursorSync.syncSingleCalendar
          { cfg := { id := "cal", name := "nm" }, syncedAtLocal := "L"
            syncedAtIso := "I", genId := fun _ => "gid" }
          [{ id := some "e1", summary := "s", start := { dateTime := some 100 }
             «end» := { dateTime := some 200 } }] [] []).target
        (CursorSync.syncSingleCalendar
          { cfg := { id := "cal", name := "nm" }, syncedAtLocal := "L"
            syncedAtIso := "I", genId := fun _ => "gid" }
          [{ id := some "e1", summary := "s", start := { dateTime := some 100 }
             «end» := { dateTime := some 200 } }] [] []).mappings).inserts = 0 := by
  have h := C2_create_then_update
    { cfg := { id := "cal", name := "nm" }, syncedAtLocal := "L"
      syncedAtIso := "I", genId := fun _ => "gid" }
    { cfg := { id := "cal", name := "nm" }, syncedAtLocal := "L"
      syncedAtIso := "I", genId := fun _ => "gid" }
    { id := some "e1", summary := "s", start := { dateTime := some 100 }
      «end» := { dateTime := some 200 } }
    [] [] (by decide) rfl rfl
  exact ⟨h.1, h.2.2.2.2.2.2.2.1⟩

/-- C4 counterexample: the claim fails for the "disappearance from the
fetched window" signal.  With a persisted mapping `("cal-A","e1") → "tgt-1"`
and its placeholder in the target calendar, a reconciliation whose fetched
event set no longer contains `e1` (the source event disappeared) deletes
nothing: `deletedCount` is 0, the mapping is still present and the
placeholder is still in the target calendar. -/
theorem C4_counterexample :
    (CursorSync.syncSingleCalendar
        { cfg := { id := "cal-A", name := "A" }, syncedAtLocal := "t"
          syncedAtIso := "t", genId := fun _ => "gid" }
        []
        [{ id := some "tgt-1", summary := "🔒 予定あり" }]
        [(("cal-A", "e1"), "tgt-1")]).result.deleted = 0 ∧
    CursorSync.getEventMapping
      (CursorSync.syncSingleCalendar
        { cfg := { id := "cal-A", name := "A" }, syncedAtLocal := "t"
          syncedAtIso := "t", genId := fun _ => "gid" }
        []
        [{ id := some "tgt-1", summary := "🔒 予定あり" }]
        [(("cal-A", "e1"), "tgt-1")]).mappings "cal-A" "e1" = some "tgt-1" ∧
    (CursorSync.syncSingleCalendar
        { cfg := { id := "cal-A", name := "A" }, syncedAtLocal := "t"
          syncedAtIso := "t", genId := fun _ => "gid" }
        []
        [{ id := some "tgt-1", summary := "🔒 予定あり" }]
        [(("cal-A", "e1"), "tgt-1")]).target =
      [{ id := some "tgt-1", summary := "🔒 予定あり" }] :=
  ⟨rfl, rfl, rfl⟩

/-- C4 (amended): deletion is driven only by fetched events carrying the
cancelled marker (`summary = "cancelled"`).  For such an event with an
existing mapping, reconciliation deletes the mapped target placeholder
(one delete call, `deletedCount` incremented) and removes the EventMapping;
an event that merely disappears from the fetched window (and so contributes
nothing to the loop) leaves its placeholder and mapping untouched. -/
theorem C4_cancelled_deletion (env : CursorSync.SyncEnv) (e : CalendarEvent)
    (t0 : List CalendarEvent) (m0 : CursorSync.Mappings) (mappedId : String)
    (hc : e.summary = "cancelled")
    (hm : CursorSync.getEventMapping m0 env.cfg.id (e.id.getD "") = some mappedId) :
    ((CursorSync.syncSingleCalendar env [e] t0 m0).result.deleted = 1 ∧
      (CursorSync.syncSingleCalendar env [e] t0 m0).deletes = 1 ∧
      CursorSync.getEventMapping (CursorSync.syncSingleCalendar env [e] t0 m0).mappings
        env.cfg.id (e.id.getD "") = none ∧
      (CursorSync.syncSingleCalendar env [e] t0 m0).target =
        t0.filter fun x => !(decide (x.id = some mappedId))) ∧
    ((CursorSync.syncSingleCalendar env [] t0 m0).result.deleted = 0 ∧
      (CursorSync.syncSingleCalendar env [] t0 m0).mappings = m0 ∧
      (CursorSync.syncSingleCalendar env [] t0 m0).target = t0) := by
  have hst : CursorSync.syncSingleCalendar env [e] t0 m0 =
      { target := t0.filter fun x => !(decide (x.id = some mappedId))
        mappings := CursorSync.deleteEventMapping m0 env.cfg.id (e.id.getD "")
        result := { created := 0, updated := 0, deleted := 1, errors := [] }
        inserts := 0, updates := 0, deletes := 1, mappingWrites := 0 } := by
    simp [CursorSync.syncSingleCalendar, CursorSync.syncEventStep, hc, hm]
  refine ⟨⟨?_, ?_, ?_, ?_⟩, rfl, rfl, rfl⟩
  · rw [hst]
  · rw [hst]
  · rw [hst]
    exact getEventMapping_delete_same m0 env.cfg.id (e.id.getD "")
  · rw [hst]

theorem C4_witness :
    (CursorSync.syncSingleCalendar
        { cfg := { id := "cal", name := "nm" }, syncedAtLocal := "t"
          syncedAtIso := "t", genId := fun _ => "g" }
        [{ id := some "e1", summary := "cancelled" }]
        [] [(("cal", "e1"), "tgt")]).result.deleted = 1 ∧
    CursorSync.getEventMapping
      (CursorSync.syncSingleCalendar
        { cfg := { id := "cal", name := "nm" }, syncedAtLocal := "t"
          syncedAtIso := "t", genId := fun _ => "g" }
        [{ id := some "e1", summary := "cancelled" }]
        [] [(("cal", "e1"), "tgt")]).mappings "cal" "e1" = none := by
  have h := C4_cancelled_deletion
    { cfg := { id := "cal", name := "nm" }, syncedAtLocal := "t"
      syncedAtIso := "t", genId := fun _ => "g" }
    { id := some "e1", summary := "cancelled" }
    [] [(("cal", "e1"), "tgt")] "tgt" rfl rfl
  exact ⟨h.1.1, h.1.2.2.1⟩

theorem check_createSyncEvent (e : CalendarEvent) (m : SyncMetadata) (t : String)
    (l : Option (List CalendarEvent)) :
    CalendarSync.checkForDuplicateEvent (CalendarSync.createSyncEvent e m t) l =
      CalendarSync.checkForDuplicateEvent e l :=
  check_congr _ _ l (createSyncEvent_start e m t) (createSyncEvent_end e m t)

theorem check_some_true_iff (ev : CalendarEvent) (l : List CalendarEvent)
    (tmin tmax : TimeStr)
    (hs : timeValue ev.start = some tmin) (he : timeValue ev.«end» = some tmax) :
    CalendarSync.checkForDuplicateEvent ev (some l) = true ↔
      ∃ ex ∈ l, CalendarSync.isDuplicateOf ev.start tmin tmax ex = true := by
  simp [CalendarSync.checkForDuplicateEvent, hs, he, List.any_eq_true]

theorem check_mono (ev : CalendarEvent) (l l' : List CalendarEvent)
    (hsub : ∀ x ∈ l, x ∈ l')
    (h : CalendarSync.checkForDuplicateEvent ev (some l) = true) :
    CalendarSync.checkForDuplicateEvent ev (some l') = true := by
  cases hs : timeValue ev.start with
  | none => simp [CalendarSync.checkForDuplicateEvent, hs] at h
  | some tmin =>
    cases he : timeValue ev.«end» with
    | none => simp [CalendarSync.checkForDuplicateEvent, hs, he] at h
    | some tmax =>
      rw [check_some_true_iff ev l tmin tmax hs he] at h
      rw [check_some_true_iff ev l' tmin tmax hs he]
      obtain ⟨x, hx, hp⟩ := h
      exact ⟨x, hsub x hx, hp⟩

/-- An event whose `start`/`end` equal the checked event's and which carries
provenance always passes the containment/equality test against it. -/
theorem isDuplicateOf_self (e : CalendarEvent) (tmin tmax : TimeStr)
    (hs : timeValue e.start = some tmin) (he : timeValue e.«end» = some tmax)
    (ex : CalendarEvent)
    (hxs : ex.start = e.start) (hxe : ex.«end» = e.«end»)
    (hxp : ex.extendedPrivate.isSome = true) :
    CalendarSync.isDuplicateOf e.start tmin tmax ex = true := by
  unfold CalendarSync.isDuplicateOf
  rw [hxs, hxe, hxp]
  simp only [Bool.true_and]
  cases hd : e.start.dateTime with
  | some ns =>
    have htmin : tmin = .dt ns := by
      simp [timeValue, hd] at hs
      exact hs.symm
    subst htmin
    simp [hd, he, TimeStr.getTime]
  | none =>
    have hdate : e.start.date.map TimeStr.d = some tmin := by
      simpa [timeValue, hd] using hs
    obtain ⟨dv, hdv, htmin⟩ := Option.map_eq_some'.mp hdate
    simp [hd, hdv, hs, he]

theorem syncEventStep_of_cancelled (env : CalendarSync.SyncEnv)
    (st : CalendarSync.SyncState) (e : CalendarEvent)
    (hc : e.summary = "cancelled") :
    CalendarSync.syncEventStep env st e = st := by
  simp [CalendarSync.syncEventStep, hc]

/-- A duplicate-containment hit leaves the state untouched: no insert, no
creation count, no target change. -/
theorem syncEventStep_of_dup (env : CalendarSync.SyncEnv)
    (st : CalendarSync.SyncState) (e : CalendarEvent)
    (hnc : ¬ e.summary = "cancelled") (hlo : env.listOk = true)
    (hdup : CalendarSync.checkForDuplicateEvent e (some st.target) = true) :
    CalendarSync.syncEventStep env st e = st := by
  have hdup' : CalendarSync.checkForDuplicateEvent
      (CalendarSync.createSyncEvent e
        { sourceCalendarId := env.cfg.id, sourceCalendarName := env.cfg.name
          sourceEventId := e.id.getD "", syncedAt := env.syncedAtIso }
        env.syncedAtLocal) (some st.target) = true := by
    rw [check_createSyncEvent]
    exact hdup
  simp [CalendarSync.syncEventStep, hnc, hlo, CalendarSync.createEventInTarget, hdup',
    jsStartsWith_dup]

/-- A missed duplicate check appends exactly the derived placeholder to the
target calendar. -/
theorem syncEventStep_target_of_new (env : CalendarSync.SyncEnv)
    (st : CalendarSync.SyncState) (e : CalendarEvent)
    (hnc : ¬ e.summary = "cancelled") (hlo : env.listOk = true)
    (hdup : CalendarSync.checkForDuplicateEvent e (some st.target) = false) :
    (CalendarSync.syncEventStep env st e).target = st.target ++
      [{ CalendarSync.createSyncEvent e
          { sourceCalendarId := env.cfg.id, sourceCalendarName := env.cfg.name
            sourceEventId := e.id.getD "", syncedAt := env.syncedAtIso }
          env.syncedAtLocal with id := some (env.genId st.inserts) }] := by
  have hdup' : CalendarSync.checkForDuplicateEvent
      (CalendarSync.createSyncEvent e
        { sourceCalendarId := env.cfg.id, sourceCalendarName := env.cfg.name
          sourceEventId := e.id.getD "", syncedAt := env.syncedAtIso }
        env.syncedAtLocal) (some st.target) = false := by
    rw [check_createSyncEvent]
    exact hdup
  simp [CalendarSync.syncEventStep, if_neg hnc, hlo,
    CalendarSync.createEventInTarget, hdup', apply_ite CalendarSync.SyncState.target]

theorem syncEventStep_target_sub (env : CalendarSync.SyncEnv)
    (st : CalendarSync.SyncState) (e : CalendarEvent) :
    ∀ x ∈ st.target, x ∈ (CalendarSync.syncEventStep env st e).target := by
  intro x hx
  by_cases hc : e.summary = "cancelled"
  · rw [syncEventStep_of_cancelled env st e hc]
    exact hx
  · by_cases hd : CalendarSync.checkForDuplicateEvent
        (CalendarSync.createSyncEvent e
          { sourceCalendarId := env.cfg.id, sourceCalendarName := env.cfg.name
            sourceEventId := e.id.getD "", syncedAt := env.syncedAtIso }
          env.syncedAtLocal)
        (if env.listOk then some st.target else none) = true
    · simp [CalendarSync.syncEventStep, hc, CalendarSync.createEventInTarget, hd,
        jsStartsWith_dup, hx]
    · rw [Bool.not_eq_true] at hd
      simp [CalendarSync.syncEventStep, hc, CalendarSync.createEventInTarget, hd,
        apply_ite CalendarSync.SyncState.target, hx]

theorem foldl_target_sub (env : CalendarSync.SyncEnv) (evs : List CalendarEvent) :
    ∀ (st : CalendarSync.SyncState) (x : CalendarEvent), x ∈ st.target →
      x ∈ (evs.foldl (CalendarSync.syncEventStep env) st).target := by
  induction evs with
  | nil => intro st x hx; simpa using hx
  | cons a as ih =>
    intro st x hx
    simp only [List.foldl_cons]
    exact ih (CalendarSync.syncEventStep env st a) x
      (syncEventStep_target_sub env st a x hx)

/-- After a reconciliation run (with working duplicate-check listings), every
non-cancelled event of the run with well-formed times is covered: the
duplicate check against the resulting target calendar reports a hit. -/
theorem foldl_covers (env : CalendarSync.SyncEnv) (hlo : env.listOk = true) :
    ∀ (evs : List CalendarEvent) (st : CalendarSync.SyncState) (e : CalendarEvent),
      e ∈ evs → ¬ e.summary = "cancelled" →
      (timeValue e.start).isSome = true → (timeValue e.«end»).isSome = true →
      CalendarSync.checkForDuplicateEvent e
        (some (evs.foldl (CalendarSync.syncEventStep env) st).target) = true := by
  intro evs
  induction evs with
  | nil => intro st e he; simp at he
  | cons a as ih =>
    intro st e he hnc h1 h2
    simp only [List.foldl_cons]
    rcases List.mem_cons.mp he with rfl | hmem
    · -- `e` is processed first; it is covered immediately afterwards and the
      -- target only grows from there
      have hafter : CalendarSync.checkForDuplicateEvent e
          (some (CalendarSync.syncEventStep env st e).target) = true := by
        by_cases hdup : CalendarSync.checkForDuplicateEvent e (some st.target) = true
        · rw [syncEventStep_of_dup env st e hnc hlo hdup]
          exact hdup
        · rw [Bool.not_eq_true] at hdup
          rw [syncEventStep_target_of_new env st e hnc hlo hdup]
          obtain ⟨tmin, hs⟩ := Option.isSome_iff_exists.mp h1
          obtain ⟨tmax, hte⟩ := Option.isSome_iff_exists.mp h2
          rw [check_some_true_iff e _ tmin tmax hs hte]
          refine ⟨_, List.mem_append_right _ (List.mem_singleton_self _), ?_⟩
          exact isDuplicateOf_self e tmin tmax hs hte _ rfl rfl rfl
      exact check_mono e _ _
        (fun x hx => foldl_target_sub env as (CalendarSync.syncEventStep env st e) x hx)
        hafter
    · exact ih (CalendarSync.syncEventStep env st a) e hmem hnc h1 h2

/-- A run over events that are all cancelled or already covered by the
current target calendar is a complete no-op on the state. -/
theorem foldl_noop (env : CalendarSync.SyncEnv) (hlo : env.listOk = true) :
    ∀ (evs : List CalendarEvent) (st : CalendarSync.SyncState),
      (∀ e ∈ evs, e.summary = "cancelled" ∨
        CalendarSync.checkForDuplicateEvent e (some st.target) = true) →
      evs.foldl (CalendarSync.syncEventStep env) st = st := by
  intro evs
  induction evs with
  | nil => intro st _; rfl
  | cons a as ih =>
    intro st h
    have hstep : CalendarSync.syncEventStep env st a = st := by
      rcases h a (List.mem_cons_self a as) with hc | hdup
      · exact syncEventStep_of_cancelled env st a hc
      · by_cases hc : a.summary = "cancelled"
        · exact syncEventStep_of_cancelled env st a hc
        · exact syncEventStep_of_dup env st a hc hlo hdup
    simp only [List.foldl_cons, hstep]
    exact ih st (fun e he => h e (List.mem_cons_of_mem a he))

/-- C3: reconciling twice in a row with an unchanged source event set is
idempotent.  With working duplicate-check listings and events that carry time
information, the second run over the target calendar produced by the first run
issues zero insert calls, counts zero creations and zero updates, and leaves
the target calendar exactly as the first run left it (the second run's final
state is its initial state). -/
theorem C3_reconcile_idempotent (env env2 : CalendarSync.SyncEnv)
    (events : List CalendarEvent) (target0 : List CalendarEvent)
    (hlo : env.listOk = true) (hlo2 : env2.listOk = true)
    (hwf : ∀ e ∈ events,
      (timeValue e.start).isSome = true ∧ (timeValue e.«end»).isSome = true) :
    CalendarSync.syncSingleCalendar env2 events
        (CalendarSync.syncSingleCalendar env events target0).target =
      { target := (CalendarSync.syncSingleCalendar env events target0).target
        result := { created := 0, updated := 0, deleted := 0, errors := [] }
        inserts := 0 } ∧
    (CalendarSync.syncSingleCalendar env2 events
        (CalendarSync.syncSingleCalendar env events target0).target).inserts = 0 ∧
    (CalendarSync.syncSingleCalendar env2 events
        (CalendarSync.syncSingleCalendar env events target0).target).result.created = 0 ∧
    (CalendarSync.syncSingleCalendar env2 events
        (CalendarSync.syncSingleCalendar env events target0).target).result.updated = 0 ∧
    (CalendarSync.syncSingleCalendar env2 events
        (CalendarSync.syncSingleCalendar env events target0).target).target =
      (CalendarSync.syncSingleCalendar env events target0).target := by
  have hmain : CalendarSync.syncSingleCalendar env2 events
      (CalendarSync.syncSingleCalendar env events target0).target =
      { target := (CalendarSync.syncSingleCalendar env events target0).target
        result := { created := 0, updated := 0, deleted := 0, errors := [] }
        inserts := 0 } := by
    unfold CalendarSync.syncSingleCalendar
    apply foldl_noop env2 hlo2
    intro e he
    by_cases hc : e.summary = "cancelled"
    · exact Or.inl hc
    · refine Or.inr ?_
      exact foldl_covers env hlo events _ e he hc (hwf e he).1 (hwf e he).2
  refine ⟨hmain, ?_, ?_, ?_, ?_⟩ <;> rw [hmain]

/-- C5: containment skip.  First part: for a timed source event whose window
is contained in an existing provenance-carrying placeholder's window
(`existStart ≤ newStart` and `newEnd ≤ existEnd`), the reconciliation step
leaves the state completely unchanged: zero creates, zero insert calls, and —
the stateless path performing no mapping writes at all — zero mapping writes.
Second part: for an all-day event, the duplicate check reports a hit exactly
when some provenance-carrying all-day event has the identical start and end
date strings, so strict containment (without equality) does not skip. -/
theorem C5_containment_skip :
    (∀ (env : CalendarSync.SyncEnv) (st : CalendarSync.SyncState)
        (e ex : CalendarEvent) (ns es : Nat) (tmax ee : TimeStr),
      env.listOk = true → ¬ e.summary = "cancelled" →
      ex ∈ st.target → ex.extendedPrivate.isSome = true →
      e.start.dateTime = some ns → ex.start.dateTime = some es →
      timeValue e.«end» = some tmax → timeValue ex.«end» = some ee →
      es ≤ ns → tmax.getTime ≤ ee.getTime →
      CalendarSync.syncEventStep env st e = st) ∧
    (∀ (e : CalendarEvent) (l : List CalendarEvent) (dv : Nat) (tmax : TimeStr),
      e.start.dateTime = none → e.start.date = some dv →
      timeValue e.«end» = some tmax →
      (CalendarSync.checkForDuplicateEvent e (some l) = true ↔
        ∃ ex ∈ l, ex.extendedPrivate.isSome = true ∧ ex.start.date.isSome = true ∧
          timeValue ex.start = some (TimeStr.d dv) ∧
          timeValue ex.«end» = some tmax)) := by
  constructor
  · intro env st e ex ns es tmax ee hlo hnc hmem hxp hde hxd hte hxe hle1 hle2
    apply syncEventStep_of_dup env st e hnc hlo
    have hs : timeValue e.start = some (.dt ns) := by simp [timeValue, hde]
    rw [check_some_true_iff e st.target (.dt ns) tmax hs hte]
    refine ⟨ex, hmem, ?_⟩
    unfold CalendarSync.isDuplicateOf
    rw [hxp]
    simp only [Bool.true_and, hde, hxd]
    simp [hxe, TimeStr.getTime]
    exact ⟨hle1, hle2⟩
  · intro e l dv tmax h1 h2 h3
    have hs : timeValue e.start = some (.d dv) := by simp [timeValue, h1, h2]
    rw [check_some_true_iff e l (.d dv) tmax hs h3]
    have hpred : ∀ ex : CalendarEvent,
        CalendarSync.isDuplicateOf e.start (.d dv) tmax ex = true ↔
          (ex.extendedPrivate.isSome = true ∧ ex.start.date.isSome = true ∧
            timeValue ex.start = some (TimeStr.d dv) ∧
            timeValue ex.«end» = some tmax) := by
      intro ex
      unfold CalendarSync.isDuplicateOf
      cases hxd : ex.start.date with
      | none =>
        simp [h1, h2, hxd]
      | some d2 =>
        simp [h1, h2, hxd, and_assoc]
    constructor
    · rintro ⟨ex, hmem, hp⟩
      exact ⟨ex, hmem, (hpred ex).mp hp⟩
    · rintro ⟨ex, hmem, hp⟩
      exact ⟨ex, hmem, (hpred ex).mpr hp⟩
theorem C5_witness :
    CalendarSync.syncEventStep
      { cfg := { id := "cal", name := "nm" }, syncedAtLocal := "L", syncedAtIso := "I", listOk := true, genId := fun _ => "gid", dupStamp := "d" }
      { target := [{ id := some "tgt", summary := "🔒 予定あり", start := { dateTime := some 0 }, «end» := { dateTime := some 1000 }, extendedPrivate := some { sourceCalendarId := "cal", sourceCalendarName := "nm", sourceEventId := "p", syncedAt := "I" } }], result := { created := 0, updated := 0, deleted := 0, errors := [] }, inserts := 0 }
      { id := some "e1", summary := "s", start := { dateTime := some 300 }, «end» := { dateTime := some 600 } } =
      { target := [{ id := some "tgt", summary := "🔒 予定あり", start := { dateTime := some 0 }, «end» := { dateTime := some 1000 }, extendedPrivate := some { sourceCalendarId := "cal", sourceCalendarName := "nm", sourceEventId := "p", syncedAt := "I" } }], result := { created := 0, updated := 0, deleted := 0, errors := [] }, inserts := 0 } :=
  C5_containment_skip.1
    { cfg := { id := "cal", name := "nm" }, syncedAtLocal := "L", syncedAtIso := "I", listOk := true, genId := fun _ => "gid", dupStamp := "d" }
    { target := [{ id := some "tgt", summary := "🔒 予定あり", start := { dateTime := some 0 }, «end» := { dateTime := some 1000 }, extendedPrivate := some { sourceCalendarId := "cal", sourceCalendarName := "nm", sourceEventId := "p", syncedAt := "I" } }], result := { created := 0, updated := 0, deleted := 0, errors := [] }, inserts := 0 }
    { id := some "e1", summary := "s", start := { dateTime := some 300 }, «end» := { dateTime := some 600 } }
    { id := some "tgt", summary := "🔒 予定あり", start := { dateTime := some 0 }, «end» := { dateTime := some 1000 }, extendedPrivate := some { sourceCalendarId := "cal", sourceCalendarName := "nm", sourceEventId := "p", syncedAt := "I" } }
    300 0 (.dt 600) (.dt 1000)
    rfl (by decide) (List.mem_singleton_self _) rfl rfl rfl rfl rfl
    (by decide) (by decide)

theorem C3_witness :
    (CalendarSync.syncSingleCalendar
      { cfg := { id := "cal", name := "nm" }, syncedAtLocal := "L", syncedAtIso := "I", listOk := true, genId := fun _ => "gid", dupStamp := "d" }
      [{ id := some "e1", summary := "s", start := { dateTime := some 100 }, «end» := { dateTime := some 200 } }]
      (CalendarSync.syncSingleCalendar
        { cfg := { id := "cal", name := "nm" }, syncedAtLocal := "L", syncedAtIso := "I", listOk := true, genId := fun _ => "gid", dupStamp := "d" }
        [{ id := some "e1", summary := "s", start := { dateTime := some 100 }, «end» := { dateTime := some 200 } }] []).target).inserts = 0 :=
  (C3_reconcile_idempotent
    { cfg := { id := "cal", name := "nm" }, syncedAtLocal := "L", syncedAtIso := "I", listOk := true, genId := fun _ => "gid", dupStamp := "d" }
    { cfg := { id := "cal", name := "nm" }, syncedAtLocal := "L", syncedAtIso := "I", listOk := true, genId := fun _ => "gid", dupStamp := "d" }
    [{ id := some "e1", summary := "s", start := { dateTime := some 100 }, «end» := { dateTime := some 200 } }] [] rfl rfl (by decide)).2.1

/-- C6: the fixed placeholder transformation and the pre-derivation filter.
A raw event whose self-attendee declined, or lacking any time information
(no `start`, or a `start` with neither `dateTime` nor `date`), fails the
`getCalendarEvents` filter, and only filtered-in raw events ever reach
placeholder derivation.  `createSyncEvent` yields the fixed busy title,
copies exactly the source's `start` and `end` objects (dateTime, date and
timezone), attaches the provenance metadata in `extendedProperties.private`,
sets no location, and its description is the fixed provenance block;
consequently the placeholder depends on the source event only through its
`start` and `end`, so title, description, location and attendees never
leak. -/
theorem C6_fixed_transformation :
    (∀ (event : RawEvent) (attendees : List RawAttendee) (a : RawAttendee),
      event.attendees = some attendees →
      attendees.find? (fun x => x.self) = some a →
      a.responseStatus = some "declined" →
      CalendarSync.keepEvent event = false) ∧
    (∀ (event : RawEvent) (s : EventDateTime),
      event.start = some s → s.dateTime = none → s.date = none →
      CalendarSync.keepEvent event = false) ∧
    (∀ event : RawEvent, event.start = none → CalendarSync.keepEvent event = false) ∧
    (∀ (items : List RawEvent) (x : CalendarEvent),
      x ∈ CalendarSync.getCalendarEvents items →
      ∃ raw ∈ items, CalendarSync.keepEvent raw = true ∧
        x = CalendarSync.toCalendarEvent raw) ∧
    (∀ (s : CalendarEvent) (m : SyncMetadata) (t : String),
      (CalendarSync.createSyncEvent s m t).summary = "🔒 予定あり" ∧
      (CalendarSync.createSyncEvent s m t).start = s.start ∧
      (CalendarSync.createSyncEvent s m t).«end» = s.«end» ∧
      (CalendarSync.createSyncEvent s m t).extendedPrivate = some m ∧
      (CalendarSync.createSyncEvent s m t).location = none ∧
      (CalendarSync.createSyncEvent s m t).description =
        some ("[自動同期]\n同期元: " ++ m.sourceCalendarName ++ "\n同期時刻: " ++ t ++
          "\n同期元イベントID: " ++ m.sourceEventId)) ∧
    (∀ (s1 s2 : CalendarEvent) (m : SyncMetadata) (t : String),
      s1.start = s2.start → s1.«end» = s2.«end» →
      CalendarSync.createSyncEvent s1 m t = CalendarSync.createSyncEvent s2 m t) := by
  refine ⟨?_, ?_, ?_, ?_, ?_, ?_⟩
  · intro event attendees a h1 h2 h3
    unfold CalendarSync.keepEvent
    cases hstart : event.start with
    | none => rfl
    | some s =>
      by_cases htime : (s.dateTime.isNone && s.date.isNone) = true
      · simp [htime]
      · simp [htime, h1, h2, h3]
  · intro event s h1 h2 h3
    simp [CalendarSync.keepEvent, h1, h2, h3]
  · intro event h
    simp [CalendarSync.keepEvent, h]
  · intro items x hx
    simp only [CalendarSync.getCalendarEvents, List.mem_map, List.mem_filter] at hx
    obtain ⟨raw, ⟨hmem, hkeep⟩, hmap⟩ := hx
    exact ⟨raw, hmem, hkeep, hmap.symm⟩
  · intro s m t
    exact ⟨rfl, rfl, rfl, rfl, rfl, rfl⟩
  · intro s1 s2 m t hs he
    simp only [CalendarSync.createSyncEvent, hs, he]

theorem C6_witness :
    CalendarSync.keepEvent
      { id := some "e1", summary := some "mtg", start := some { dateTime := some 100 }, «end» := some { dateTime := some 200 }, attendees := some [{ self := false, responseStatus := some "accepted" }, { self := true, responseStatus := some "declined" }] } = false :=
  C6_fixed_transformation.1
    { id := some "e1", summary := some "mtg", start := some { dateTime := some 100 }, «end» := some { dateTime := some 200 }, attendees := some [{ self := false, responseStatus := some "accepted" }, { self := true, responseStatus := some "declined" }] }
    [{ self := false, responseStatus := some "accepted" }, { self := true, responseStatus := some "declined" }]
    { self := true, responseStatus := some "declined" }
    rfl (by decide) rfl
